import Mathlib

/-!
Verification of the NewsAudiocast core: a shallow embedding of
`ai_utils.py` (batch summarization, anchor rephrasing, rate-limit logging)
and `news_service.py` (personalized feed aggregation), with theorems
settling the specification claims.

External collaborators (the Gemini provider, the SQL store, the feed
parser, `urllib.parse`) are modelled as explicit oracle inputs; every
function of the repository itself is translated directly from the source.
-/

/-- Token-usage metadata built from a provider response
(`ai_utils.py`, the `usage_metadata` dictionaries). -/
structure Usage where
  prompt_tokens : Nat
  completion_tokens : Nat
  total_tokens : Nat
deriving DecidableEq, Repr

/-- A row of the `api_errors` table (`models.py`, class `ApiError`).
Timestamps are rationals (seconds); `datetime` arithmetic is exact. -/
structure ApiError where
  timestamp : ℚ
  error_message : String
deriving DecidableEq, Repr

/-- Outcome of one call to the Gemini provider, as seen by
`_call_google_api`: a normal response, an exception of some other kind
(the function then returns `None`), or `ResourceExhausted`. -/
inductive ProviderResult
  | success (text : String) (usage : Usage)
  | transientFailure
  | quotaExceeded
deriving DecidableEq, Repr

/-- The ambient state an `ai_utils.py` call runs in: the `api_errors`
table, the current clock, and whether the SQL store raises
`SQLAlchemyError` on the read (`db.query`) or the write (`db.commit`)
performed by `_log_rate_limit_error_if_needed`. -/
structure AiState where
  db : List ApiError
  now : ℚ
  queryFails : Bool
  commitFails : Bool
deriving DecidableEq, Repr

/-- Side effects of one `ai_utils.py` entry point: the `api_errors`
table afterwards, the provider calls made (prompt and temperature),
and how many times the rate-limit logging policy ran. -/
structure Effects where
  db : List ApiError
  calls : List (String × ℚ)
  logCalls : Nat
deriving DecidableEq, Repr

/-- `timedelta(hours=23)` in seconds. -/
def hours23 : ℚ := 23 * 3600

/-- The fixed message written by `_log_rate_limit_error_if_needed`. -/
def rateLimitMessage : String := "Google Gemini API rate limit exceeded."

/-- `db.query(ApiError).order_by(ApiError.timestamp.desc()).first()`:
the timestamp of the most recent stored rate-limit event, if any. -/
def lastErrorTimestamp (db : List ApiError) : Option ℚ :=
  db.foldl (fun acc e =>
    match acc with
    | none => some e.timestamp
    | some t => some (max t e.timestamp)) none

/-- `_log_rate_limit_error_if_needed` (`ai_utils.py` lines 35-56).
Reads the most recent `ApiError`; appends a new row stamped `now` when
none exists or the last is strictly more than 23 hours old.
`SQLAlchemyError` on the read or the write is caught and rolled back,
leaving the table unchanged. -/
def _log_rate_limit_error_if_needed (now : ℚ) (db : List ApiError)
    (queryFails commitFails : Bool) : List ApiError :=
  if queryFails then db
  else
    let shouldLog :=
      match lastErrorTimestamp db with
      | none => true
      | some t => decide (now - t > hours23)
    if shouldLog then
      (if commitFails then db else db ++ [⟨now, rateLimitMessage⟩])
    else db

/-- What `_call_google_api` hands back to its caller: a response
object, the value `None`, or a raised `RateLimitException`. -/
inductive CallOutcome
  | got (text : String) (usage : Usage)
  | returnedNone
  | raisedRateLimit
deriving DecidableEq, Repr

/-- `_call_google_api` (`ai_utils.py` lines 58-77).  On
`ResourceExhausted` it runs the rate-limit logging policy once and
raises `RateLimitException`; any other exception yields `None`. -/
def _call_google_api (prompt : String) (temperature : ℚ)
    (provider : ProviderResult) (st : AiState) : CallOutcome × Effects :=
  match provider with
  | .success t u => (.got t u, ⟨st.db, [(prompt, temperature)], 0⟩)
  | .transientFailure => (.returnedNone, ⟨st.db, [(prompt, temperature)], 0⟩)
  | .quotaExceeded =>
      (.raisedRateLimit,
       ⟨_log_rate_limit_error_if_needed st.now st.db st.queryFails st.commitFails,
        [(prompt, temperature)], 1⟩)

/-- Result of an `ai_utils.py` entry point: a returned pair
`(value, usage?)`, or a propagated `RateLimitException`. -/
inductive AiResult (α : Type)
  | ok (value : α) (usage : Option Usage)
  | rateLimitRaised
deriving DecidableEq, Repr

/-- Python whitespace (`str.strip`, regex `\s`), ASCII range. -/
def isPySpace (c : Char) : Bool :=
  c = ' ' || c = '\t' || c = '\n' || c = '\r' || c = '\x0b' || c = '\x0c'

/-- ASCII decimal digit (regex `\d`). -/
def isAsciiDigit (c : Char) : Bool := '0' ≤ c && c ≤ '9'

/-- `str.strip()` on a character list. -/
def stripChars (l : List Char) : List Char :=
  ((l.dropWhile isPySpace).reverse.dropWhile isPySpace).reverse

/-- `str.strip()`. -/
def pyStrip (s : String) : String := String.mk (stripChars s.data)

/-- Consume a literal, case-insensitively, from the front of `l`,
returning the remainder. -/
def dropCaseInsensitive : List Char → List Char → Option (List Char)
  | [], l => some l
  | _ :: _, [] => none
  | p :: ps, c :: cs =>
      if c.toLower = p.toLower then dropCaseInsensitive ps cs else none

/-- Match the regex `SUMMARY\s*\d+:` (IGNORECASE) at the front of `l`,
returning the remainder after the match.  The character classes of the
pattern are pairwise disjoint and followed by distinct literals, so
greedy matching without backtracking is exact. -/
def markerRest (l : List Char) : Option (List Char) :=
  match dropCaseInsensitive "SUMMARY".data l with
  | none => none
  | some r1 =>
    let r2 := r1.dropWhile isPySpace
    let digits := r2.takeWhile isAsciiDigit
    let r3 := r2.dropWhile isAsciiDigit
    if digits.isEmpty then none
    else
      match r3 with
      | ':' :: r4 => some r4
      | _ => none

/-- `re.split(r"SUMMARY\s*\d+:", ·, flags=IGNORECASE)`: scan left to
right for non-overlapping matches, cutting the text at each one.  The
segment before the first match (the preamble) is included.  `fuel`
bounds the recursion structurally; each step consumes at least one
character, so any `fuel ≥ l.length` computes the full split
(`splitAuxF_fuel_irrelevant`). -/
def splitAuxF (fuel : Nat) (acc : List Char) (l : List Char) : List (List Char) :=
  match fuel with
  | 0 => [acc.reverse]
  | fuel + 1 =>
    match markerRest l with
    | some rest => acc.reverse :: splitAuxF fuel [] rest
    | none =>
      match l with
      | [] => [acc.reverse]
      | c :: cs => splitAuxF fuel (c :: acc) cs

/-- All segments of the marker split, preamble first. -/
def splitOnMarkers (l : List Char) : List (List Char) := splitAuxF l.length [] l

/-- The parsing step of `summarize_texts_batch` (`ai_utils.py` lines
150-152): strip the response, split on the markers, drop the preamble,
strip each segment. -/
def parseBatchSummaries (respText : String) : List String :=
  ((splitOnMarkers (stripChars respText.data)).drop 1).map
    (fun seg => String.mk (stripChars seg))

/-- The truncation fallback applied to one article
(`text[:150] + '...' if len(text) > 150 else text`). -/
def truncate150 (text : String) : String :=
  if text.length > 150 then text.take 150 ++ "..." else text

/-- The fixed prompt sections of the batch prompt
(`ai_utils.py` lines 126-131). -/
def batchPromptHeader : List String :=
  ["You are an expert news summarizer. I will provide a list of articles. For each article, provide a concise and clear summary of no more than 100 words.",
   "Present the output as a numbered list. Each summary must start with 'SUMMARY <number>:' on a new line, where <number> is the article number.",
   "For example:\nSUMMARY 1:\n<summary for article 1>\n\nSUMMARY 2:\n<summary for article 2>",
   "\nHere are the articles:\n"]

/-- The full batch prompt: header plus `ARTICLE i:` sections, joined
with newlines (`ai_utils.py` lines 132-135). -/
def batchPrompt (texts : List String) : String :=
  String.intercalate "\n"
    (batchPromptHeader ++
      texts.enum.map (fun p => "ARTICLE " ++ toString (p.1 + 1) ++ ":\n" ++ p.2 ++ "\n"))

/-- `summarize_texts_batch` (`ai_utils.py` lines 116-160). -/
def summarize_texts_batch (texts : List String) (provider : ProviderResult)
    (st : AiState) : AiResult (List String) × Effects :=
  if texts.isEmpty then (.ok [] none, ⟨st.db, [], 0⟩)
  else
    match _call_google_api (batchPrompt texts) (3/10) provider st with
    | (.raisedRateLimit, eff) => (.rateLimitRaised, eff)
    | (.returnedNone, eff) => (.ok (texts.map truncate150) none, eff)
    | (.got t u, eff) =>
        let cleaned := parseBatchSummaries t
        if cleaned.length = texts.length then (.ok cleaned (some u), eff)
        else (.ok (texts.map truncate150) none, eff)

/-- The fixed fallback string of `rephrase_as_anchor`. -/
def anchorFallbackMessage : String :=
  "Could not generate the news anchor script at this time."

/-- The anchor-rephrasing prompt (`ai_utils.py` line 103). -/
def anchorPrompt (text : String) : String :=
  "You are a professional news anchor. Rewrite the following text into a cohesive, flowing news script that you would read on air. Make it engaging and professional:\n\n" ++ text

/-- `rephrase_as_anchor` (`ai_utils.py` lines 98-114). -/
def rephrase_as_anchor (text : String) (provider : ProviderResult)
    (st : AiState) : AiResult String × Effects :=
  match _call_google_api (anchorPrompt text) (7/10) provider st with
  | (.raisedRateLimit, eff) => (.rateLimitRaised, eff)
  | (.returnedNone, eff) => (.ok anchorFallbackMessage none, eff)
  | (.got t u, eff) => (.ok t (some u), eff)

/-- A concrete ambient state used by the witnesses. -/
def witnessState : AiState := ⟨[], 0, false, false⟩

/-- Python truthiness of an optional string (`None` and `""` falsy). -/
def optTruthy : Option String → Bool
  | some s => s ≠ ""
  | none => false

/-- Extract an optional string, empty when absent. -/
def getOrEmpty : Option String → String
  | some s => s
  | none => ""

/-- One feed item as used by `news_service.py`: the `entry.source.href`
attribute chain (absent or possibly empty) and `entry.link`. -/
structure Entry where
  sourceHref : Option String
  link : Option String
deriving DecidableEq, Repr

/-- A parsed feed (`feedparser` result); the `bozo` flag is only
logged by the source and does not affect the data flow. -/
structure Feed where
  entries : List Entry
deriving DecidableEq, Repr

/-- Outcome of `feedparser.parse` on a URL: a parsed feed, or an
exception escaping the parse. -/
inductive FetchOutcome
  | parsed (feed : Feed)
  | raises
deriving DecidableEq, Repr

/-- Outcome of reading `user.preferred_category` and `user.topics`
from the preference store (`news_service.py` lines 106-108): the
values, a `SQLAlchemyError` (caught at line 134), or any other
exception (not caught there; re-raised by the outer handler). -/
inductive PrefsOutcome
  | ok (preferred_category : Option String) (topics : List String)
  | sqlError
  | unexpected
deriving DecidableEq, Repr

/-- A user row as read by `get_personalized_news`. -/
structure UserRec where
  preferred_region : Option String
  prefs : PrefsOutcome
deriving DecidableEq, Repr

/-- The external world of `news_service.py`: the feed parser, the
`urlparse(...).hostname` helper, and the user table. -/
structure NewsEnv where
  fetch : String → FetchOutcome
  hostname : String → Option String
  users : Nat → Option UserRec

/-- `NEWS_FEEDS` (`constants.py`), in source order. -/
def NEWS_FEEDS : List (String × String) :=
  [("Top Stories", "https://news.google.com/rss"),
   ("World", "https://news.google.com/rss/headlines/section/topic/WORLD"),
   ("Business", "https://news.google.com/rss/headlines/section/topic/BUSINESS"),
   ("Technology", "https://news.google.com/rss/headlines/section/topic/TECHNOLOGY"),
   ("Sports", "https://news.google.com/rss/headlines/section/topic/SPORTS"),
   ("Fashion", "https://news.google.com/rss/search?q=fashion"),
   ("AI", "https://news.google.com/rss/search?q=AI"),
   ("Defence", "https://news.google.com/rss/search?q=defence"),
   ("Information Technology", "https://news.google.com/rss/search?q=information%20technology"),
   ("Weather", "https://news.google.com/rss/search?q=weather")]

/-- Dictionary membership / subscript on `NEWS_FEEDS`. -/
def newsFeedLookup (k : String) : Option String :=
  (NEWS_FEEDS.find? (fun p => p.1 == k)).map (fun p => p.2)

/-- `build_full_url` (`utils.py` lines 24-29). -/
def build_full_url (base_url : String) (region : Option String) : String :=
  if optTruthy region then
    let separator := if base_url.contains '?' then "&" else "?"
    base_url ++ separator ++ "gl=" ++ getOrEmpty region ++ "&hl=en"
  else base_url

/-- UTF-8 bytes of a code point, for `urllib.parse.quote`. -/
def utf8Bytes (n : Nat) : List Nat :=
  if n < 128 then [n]
  else if n < 2048 then [192 + n / 64, 128 + n % 64]
  else if n < 65536 then [224 + n / 4096, 128 + (n / 64) % 64, 128 + n % 64]
  else [240 + n / 262144, 128 + (n / 4096) % 64, 128 + (n / 64) % 64, 128 + n % 64]

/-- Uppercase hexadecimal digit. -/
def hexDigit (n : Nat) : Char :=
  if n < 10 then Char.ofNat (48 + n) else Char.ofNat (55 + n)

/-- One percent-encoded byte, uppercase hex. -/
def percentByte (b : Nat) : String :=
  String.mk ['%', hexDigit (b / 16), hexDigit (b % 16)]

/-- Characters `urllib.parse.quote` leaves unescaped with the default
`safe='/'`: letters, digits, `_.-~` and `/`. -/
def quoteSafe (c : Char) : Bool :=
  ('A' ≤ c && c ≤ 'Z') || ('a' ≤ c && c ≤ 'z') || ('0' ≤ c && c ≤ '9') ||
  c = '_' || c = '.' || c = '-' || c = '~' || c = '/'

/-- `urllib.parse.quote` with the default safe set. -/
def pyQuote (s : String) : String :=
  String.join (s.data.map (fun c =>
    if quoteSafe c then String.mk [c]
    else String.join ((utf8Bytes c.toNat).map percentByte)))

/-- The Google News search-feed URL for a query
(`news_service.py` lines 89 and 130). -/
def searchUrlFor (q : String) : String :=
  "https://news.google.com/rss/search?q=" ++ pyQuote q

/-- `_get_logo_url_from_entry` (`news_service.py` lines 27-46). -/
def _get_logo_url_from_entry (hostname : String → Option String)
    (entry : Entry) : Option String :=
  let url_to_parse : Option String :=
    if optTruthy entry.sourceHref then entry.sourceHref
    else if optTruthy entry.link then entry.link
    else none
  match url_to_parse with
  | none => none
  | some u =>
    match hostname u with
    | some host =>
        if host ≠ "" then
          some ("https://www.google.com/s2/favicons?domain=" ++ host ++ "&sz=64")
        else none
    | none => none

/-- `_parse_feed_and_get_entries` (`news_service.py` lines 49-64): any
exception is caught and turned into the empty list; otherwise the
first `limit` entries are paired with their logo URLs. -/
def _parse_feed_and_get_entries (env : NewsEnv) (feed_url : String)
    (limit : Nat) : List (Entry × Option String) :=
  match env.fetch feed_url with
  | .raises => []
  | .parsed feed =>
      (feed.entries.take limit).map
        (fun e => (e, _get_logo_url_from_entry env.hostname e))

/-- The `final_region_code` resolution
(`news_service.py` lines 81-85). -/
def final_region_code (user : Option UserRec) (country_code : Option String) :
    Option String :=
  match user with
  | some u =>
      if optTruthy u.preferred_region then u.preferred_region
      else if optTruthy country_code then country_code else none
  | none => if optTruthy country_code then country_code else none

/-- `get_personalized_news` (`news_service.py` lines 67-149).  The
result is `Except Unit`: `.error ()` models an exception propagating to
the caller (the outer handler at lines 146-149 logs and re-raises). -/
def get_personalized_news (env : NewsEnv) (user_id : Option Nat)
    (search_query : Option String) (country_code : Option String)
    (category : Option String) : Except Unit (List (Entry × Option String)) :=
  let user : Option UserRec :=
    match user_id with
    | some uid => if uid = 0 then none else env.users uid
    | none => none
  let region := final_region_code user country_code
  if optTruthy search_query then
    .ok (_parse_feed_and_get_entries env
      (build_full_url (searchUrlFor (getOrEmpty search_query)) region) 10)
  else if optTruthy category && (newsFeedLookup (getOrEmpty category)).isSome then
    .ok (_parse_feed_and_get_entries env
      (build_full_url ((newsFeedLookup (getOrEmpty category)).getD "") region) 10)
  else
    let blended : Except Unit (List (Entry × Option String)) :=
      match user with
      | none => .ok []
      | some u =>
        match u.prefs with
        | .unexpected => .error ()
        | .sqlError => .ok []
        | .ok preferred_category topics =>
          let has_category :=
            optTruthy preferred_category &&
              (newsFeedLookup (getOrEmpty preferred_category)).isSome
          let has_topics := !topics.isEmpty
          let limits : Nat × Nat :=
            if has_category && has_topics then (5, 5)
            else if has_category then (10, 0)
            else if has_topics then (0, 10)
            else (0, 0)
          let catEntries :=
            if limits.1 > 0 then
              _parse_feed_and_get_entries env
                (build_full_url ((newsFeedLookup (getOrEmpty preferred_category)).getD "")
                  region) limits.1
            else []
          let topEntries :=
            if limits.2 > 0 then
              _parse_feed_and_get_entries env
                (build_full_url (searchUrlFor (String.intercalate " OR " topics))
                  region) limits.2
            else []
          .ok (catEntries ++ topEntries)
    match blended with
    | .error e => .error e
    | .ok combined =>
      .ok (if combined.isEmpty then
            _parse_feed_and_get_entries env
              (build_full_url ((newsFeedLookup "Top Stories").getD "") region) 10
          else combined)

/-- A sample feed entry with only a link. -/
def entryA : Entry := ⟨none, some "https://example.com/a"⟩

/-- A sample feed entry with only a source href. -/
def entryB : Entry := ⟨some "https://pub.example.org", none⟩

/-- A user following the World category and two topics. -/
def userC6 : UserRec := ⟨none, .ok (some "World") ["ai", "tech"]⟩

/-- Environment for the blend witness: the World feed has 7 entries,
the combined topic search has 2, everything else fails. -/
def envC6 : NewsEnv :=
  { fetch := fun url =>
      if url = "https://news.google.com/rss/headlines/section/topic/WORLD" then
        .parsed ⟨[entryA, entryB, entryA, entryB, entryA, entryB, entryA]⟩
      else if url = "https://news.google.com/rss/search?q=ai%20OR%20tech" then
        .parsed ⟨[entryB, entryA]⟩
      else .raises,
    hostname := fun _ => none,
    users := fun uid => if uid = 1 then some userC6 else none }

/-- Environment in which the user has both a recognized category and
topics, yet both blend fetches fail, and the default feed has one
entry: the code then returns the default entry, not the (empty)
category-plus-topic concatenation. -/
def envC6bad : NewsEnv :=
  { fetch := fun url =>
      if url = "https://news.google.com/rss" then .parsed ⟨[entryA]⟩
      else .raises,
    hostname := fun _ => none,
    users := fun uid => if uid = 1 then some userC6 else none }

/-- A user whose preference access raises a non-database exception. -/
def userUnexpected : UserRec := ⟨some "US", .unexpected⟩

/-- A user whose preference access raises `SQLAlchemyError`. -/
def userSqlFailing : UserRec := ⟨none, .sqlError⟩

/-- Environment in which every feed fetch raises. -/
def envRaises : NewsEnv :=
  { fetch := fun _ => .raises,
    hostname := fun _ => none,
    users := fun uid =>
      if uid = 2 then some userUnexpected
      else if uid = 3 then some userSqlFailing
      else none }

/-- Environment for the cap witness: only the default feed resolves. -/
def envDefault : NewsEnv :=
  { fetch := fun url =>
      if url = "https://news.google.com/rss" then .parsed ⟨[entryA, entryB]⟩
      else .raises,
    hostname := fun _ => none,
    users := fun _ => none }

theorem length_dropWhile_le (p : Char → Bool) (l : List Char) :
    (l.dropWhile p).length ≤ l.length := by
  induction l with
  | nil => simp
  | cons c cs ih =>
    by_cases h : p c
    · simp [List.dropWhile, h]; omega
    · simp [List.dropWhile, h]

theorem dropCaseInsensitive_length {p l r : List Char}
    (h : dropCaseInsensitive p l = some r) : r.length + p.length = l.length := by
  induction p generalizing l with
  | nil =>
    simp only [dropCaseInsensitive, Option.some.injEq] at h
    simp [h]
  | cons a as ih =>
    cases l with
    | nil => simp [dropCaseInsensitive] at h
    | cons c cs =>
      simp only [dropCaseInsensitive] at h
      split at h
      · have := ih h
        simp only [List.length_cons]
        omega
      · exact absurd h (by simp)

theorem markerRest_length {l r : List Char} (h : markerRest l = some r) :
    r.length < l.length := by
  unfold markerRest at h
  cases hd : dropCaseInsensitive "SUMMARY".data l with
  | none => rw [hd] at h; exact absurd h (by simp)
  | some r1 =>
    rw [hd] at h
    have h7 : r1.length + 7 = l.length := by
      have := dropCaseInsensitive_length hd
      simpa using this
    simp only at h
    split at h
    · exact absurd h (by simp)
    · split at h
      · rename_i r4 heq
        have hr : r = r4 := by simpa using h.symm
        subst hr
        have h3 : (':' :: r).length ≤ (r1.dropWhile isPySpace).length := by
          rw [← heq]
          exact length_dropWhile_le _ _
        have h2 : (r1.dropWhile isPySpace).length ≤ r1.length :=
          length_dropWhile_le _ _
        simp only [List.length_cons] at h3
        omega
      · exact absurd h (by simp)

theorem markerRest_nil : markerRest [] = none := rfl

theorem splitAuxF_fuel_irrelevant : ∀ (fuel : Nat) (acc l : List Char),
    l.length ≤ fuel → splitAuxF fuel acc l = splitAuxF l.length acc l := by
  intro fuel
  induction fuel using Nat.strong_induction_on with
  | _ fuel ih =>
    intro acc l h
    cases fuel with
    | zero =>
      have hl : l = [] := List.length_eq_zero.mp (Nat.le_zero.mp h)
      subst hl; rfl
    | succ f =>
      cases hm : markerRest l with
      | some rest =>
        have hrl : rest.length < l.length := markerRest_length hm
        cases l with
        | nil => rw [markerRest_nil] at hm; exact absurd hm (by simp)
        | cons c cs =>
          simp only [List.length_cons] at h hrl ⊢
          simp only [splitAuxF, hm]
          rw [ih f (Nat.lt_succ_self f) [] rest (by omega),
              ih cs.length (by omega) [] rest (by omega)]
      | none =>
        cases l with
        | nil => rfl
        | cons c cs =>
          simp only [List.length_cons] at h ⊢
          simp only [splitAuxF, hm]
          exact ih f (Nat.lt_succ_self f) (c :: acc) cs (by omega)

/-- Claim C1: for every list of N ≥ 0 input article texts,
`summarize_texts_batch` returns a list of exactly N summaries on every
returning path (model success or truncation fallback); for the empty
input it returns `([], none)` with no model call and no usage data. -/
theorem summarize_texts_batch_length (texts : List String)
    (provider : ProviderResult) (st : AiState) (summaries : List String)
    (usage : Option Usage) (eff : Effects)
    (h : summarize_texts_batch texts provider st = (.ok summaries usage, eff)) :
    summaries.length = texts.length ∧
    summarize_texts_batch [] provider st = (.ok [] none, ⟨st.db, [], 0⟩) := by
  refine ⟨?_, ?_⟩
  · by_cases hemp : texts.isEmpty
    · have htx : texts = [] := by
        cases texts with
        | nil => rfl
        | cons a as => simp [List.isEmpty] at hemp
      subst htx
      simp only [summarize_texts_batch, List.isEmpty_nil, if_true,
        Prod.mk.injEq, AiResult.ok.injEq] at h
      obtain ⟨⟨h1, -⟩, -⟩ := h
      simp [← h1]
    · rw [summarize_texts_batch, if_neg hemp] at h
      cases provider with
      | success t u =>
        simp only [_call_google_api] at h
        split at h
        · rename_i hlen
          simp only [Prod.mk.injEq, AiResult.ok.injEq] at h
          obtain ⟨⟨h1, -⟩, -⟩ := h
          rw [← h1]; exact hlen
        · simp only [Prod.mk.injEq, AiResult.ok.injEq] at h
          obtain ⟨⟨h1, -⟩, -⟩ := h
          rw [← h1]; exact List.length_map texts truncate150
      | transientFailure =>
        simp only [_call_google_api, Prod.mk.injEq, AiResult.ok.injEq] at h
        obtain ⟨⟨h1, -⟩, -⟩ := h
        rw [← h1]; exact List.length_map texts truncate150
      | quotaExceeded =>
        simp only [_call_google_api, Prod.mk.injEq] at h
        exact absurd h.1 (by simp)
  · rfl

theorem summarize_texts_batch_length_witness :
    (["first article", "second article"].map truncate150).length
        = (["first article", "second article"] : List String).length ∧
    summarize_texts_batch [] .transientFailure witnessState
        = (.ok [] none, ⟨witnessState.db, [], 0⟩) :=
  summarize_texts_batch_length ["first article", "second article"]
    .transientFailure witnessState
    (["first article", "second article"].map truncate150) none
    ⟨witnessState.db, [(batchPrompt ["first article", "second article"], 3/10)], 0⟩
    rfl

/-- Claim C2: on a transient model failure, or when the parsed segment
count differs from the input count (zero markers included), every
article receives the truncation fallback — the first 150 characters
followed by "..." when the article exceeds 150 characters, otherwise
the article unchanged — and usage data is absent. -/
theorem summarize_texts_batch_fallback (texts : List String) (st : AiState)
    (hne : texts ≠ []) :
    (summarize_texts_batch texts .transientFailure st).1
        = .ok (texts.map (fun text =>
            if text.length > 150 then text.take 150 ++ "..." else text)) none ∧
    ∀ t u, (parseBatchSummaries t).length ≠ texts.length →
      (summarize_texts_batch texts (.success t u) st).1
        = .ok (texts.map (fun text =>
            if text.length > 150 then text.take 150 ++ "..." else text)) none := by
  have hemp : texts.isEmpty = false := by
    cases texts with
    | nil => exact absurd rfl hne
    | cons a as => rfl
  refine ⟨?_, ?_⟩
  · rw [summarize_texts_batch, hemp]
    rfl
  · intro t u hlen
    rw [summarize_texts_batch, hemp]
    simp only [Bool.false_eq_true, if_false, _call_google_api]
    rw [if_neg hlen]
    rfl

theorem summarize_texts_batch_fallback_witness :
    (summarize_texts_batch [String.mk (List.replicate 200 'A')]
        .transientFailure witnessState).1
      = .ok ([String.mk (List.replicate 200 'A')].map (fun text =>
          if text.length > 150 then text.take 150 ++ "..." else text)) none ∧
    (summarize_texts_batch [String.mk (List.replicate 200 'A')]
        (.success "no markers in this reply" ⟨1, 2, 3⟩) witnessState).1
      = .ok ([String.mk (List.replicate 200 'A')].map (fun text =>
          if text.length > 150 then text.take 150 ++ "..." else text)) none :=
  ⟨(summarize_texts_batch_fallback [String.mk (List.replicate 200 'A')]
      witnessState (by simp)).1,
   (summarize_texts_batch_fallback [String.mk (List.replicate 200 'A')]
      witnessState (by simp)).2 "no markers in this reply" ⟨1, 2, 3⟩ (by decide)⟩

/-- Claim C3: on a successful model response the text is split on the
marker pattern `SUMMARY <n>:` case-insensitively, the numeric index
being irrelevant to the split (segments stay in textual order, never
reordered by index), the preamble before the first marker is dropped,
and each segment is trimmed; when the segment count equals the input
count those trimmed segments are returned in order with the usage
record.  The concrete conjuncts exhibit the preamble discard, the
case-insensitivity, the irrelevance of the indices, and the trim. -/
theorem summarize_texts_batch_success (texts : List String) (t : String)
    (u : Usage) (st : AiState) (hne : texts ≠ [])
    (hlen : (parseBatchSummaries t).length = texts.length) :
    (summarize_texts_batch texts (.success t u) st).1
        = .ok (parseBatchSummaries t) (some u) ∧
    parseBatchSummaries "SUMMARY 1:\nShort text summary" = ["Short text summary"] ∧
    parseBatchSummaries "Ignored preamble.\nsummary 2: First \nSuMmArY 10:\t\nSecond"
        = ["First", "Second"] ∧
    parseBatchSummaries "SUMMARY 3: A SUMMARY 1: B" = ["A", "B"] := by
  have hemp : texts.isEmpty = false := by
    cases texts with
    | nil => exact absurd rfl hne
    | cons a as => rfl
  refine ⟨?_, by decide, by decide, by decide⟩
  rw [summarize_texts_batch, hemp]
  simp only [Bool.false_eq_true, if_false, _call_google_api]
  rw [if_pos hlen]

theorem summarize_texts_batch_success_witness :
    (summarize_texts_batch ["Short text"]
        (.success "SUMMARY 1:\nShort text summary" ⟨5, 6, 11⟩) witnessState).1
      = .ok (parseBatchSummaries "SUMMARY 1:\nShort text summary") (some ⟨5, 6, 11⟩) ∧
    parseBatchSummaries "SUMMARY 1:\nShort text summary" = ["Short text summary"] ∧
    parseBatchSummaries "Ignored preamble.\nsummary 2: First \nSuMmArY 10:\t\nSecond"
        = ["First", "Second"] ∧
    parseBatchSummaries "SUMMARY 3: A SUMMARY 1: B" = ["A", "B"] :=
  summarize_texts_batch_success ["Short text"] "SUMMARY 1:\nShort text summary"
    ⟨5, 6, 11⟩ witnessState (by simp) (by decide)

/-- Claim C4: when the provider signals quota exhaustion, the condition
propagates unchanged out of both `summarize_texts_batch` and
`rephrase_as_anchor` — no truncation or fixed-string fallback — after
the rate-limit logging policy has run exactly once on the stored
state. -/
theorem quota_exceeded_propagates (texts : List String) (text : String)
    (st : AiState) (hne : texts ≠ []) :
    summarize_texts_batch texts .quotaExceeded st
      = (.rateLimitRaised,
         ⟨_log_rate_limit_error_if_needed st.now st.db st.queryFails st.commitFails,
          [(batchPrompt texts, 3/10)], 1⟩) ∧
    rephrase_as_anchor text .quotaExceeded st
      = (.rateLimitRaised,
         ⟨_log_rate_limit_error_if_needed st.now st.db st.queryFails st.commitFails,
          [(anchorPrompt text, 7/10)], 1⟩) := by
  have hemp : texts.isEmpty = false := by
    cases texts with
    | nil => exact absurd rfl hne
    | cons a as => rfl
  refine ⟨?_, rfl⟩
  rw [summarize_texts_batch, hemp]
  rfl

theorem quota_exceeded_propagates_witness :
    summarize_texts_batch ["one article"] .quotaExceeded witnessState
      = (.rateLimitRaised,
         ⟨_log_rate_limit_error_if_needed witnessState.now witnessState.db
            witnessState.queryFails witnessState.commitFails,
          [(batchPrompt ["one article"], 3/10)], 1⟩) ∧
    rephrase_as_anchor "script body" .quotaExceeded witnessState
      = (.rateLimitRaised,
         ⟨_log_rate_limit_error_if_needed witnessState.now witnessState.db
            witnessState.queryFails witnessState.commitFails,
          [(anchorPrompt "script body", 7/10)], 1⟩) :=
  quota_exceeded_propagates ["one article"] "script body" witnessState (by simp)

/-- Claim C5: `_log_rate_limit_error_if_needed` appends a new event row
(current timestamp, fixed message) if and only if no record exists or
the most recent one is strictly more than 23 hours old, and otherwise
stores nothing; hence two calls within 23 hours of the first store one
event, and a second call strictly later than 23 hours stores two. -/
theorem rate_limit_log_dedup (now t0 t1 : ℚ) (db : List ApiError) :
    (_log_rate_limit_error_if_needed now db false false
        = db ++ [⟨now, rateLimitMessage⟩]
      ↔ lastErrorTimestamp db = none ∨
        ∃ t, lastErrorTimestamp db = some t ∧ now - t > hours23) ∧
    (_log_rate_limit_error_if_needed now db false false = db
      ↔ ¬(lastErrorTimestamp db = none ∨
          ∃ t, lastErrorTimestamp db = some t ∧ now - t > hours23)) ∧
    (t1 - t0 ≤ hours23 →
      (_log_rate_limit_error_if_needed t1
        (_log_rate_limit_error_if_needed t0 [] false false) false false).length = 1) ∧
    (hours23 < t1 - t0 →
      (_log_rate_limit_error_if_needed t1
        (_log_rate_limit_error_if_needed t0 [] false false) false false).length = 2) := by
  have key : ∀ (n : ℚ) (d : List ApiError),
      _log_rate_limit_error_if_needed n d false false
        = if (match lastErrorTimestamp d with
              | none => true
              | some t => decide (n - t > hours23)) = true
          then d ++ [⟨n, rateLimitMessage⟩] else d := by
    intro n d
    rw [_log_rate_limit_error_if_needed]
    simp only [Bool.false_eq_true, if_false]
  have hfirst : _log_rate_limit_error_if_needed t0 [] false false
      = [⟨t0, rateLimitMessage⟩] := by
    rw [key]; rfl
  have hlast1 : lastErrorTimestamp [⟨t0, rateLimitMessage⟩] = some t0 := rfl
  refine ⟨?_, ?_, ?_, ?_⟩
  · rw [key]
    constructor
    · intro h
      by_cases hc : (match lastErrorTimestamp db with
          | none => true
          | some t => decide (now - t > hours23)) = true
      · cases hl : lastErrorTimestamp db with
        | none => exact Or.inl rfl
        | some t =>
          rw [hl] at hc
          exact Or.inr ⟨t, rfl, of_decide_eq_true hc⟩
      · rw [if_neg hc] at h
        have hlen := congrArg List.length h
        simp at hlen
    · intro h
      cases h with
      | inl h => rw [if_pos (by rw [h])]
      | inr h =>
        obtain ⟨t, hl, ht⟩ := h
        rw [if_pos (by rw [hl]; simpa using ht)]
  · rw [key]
    constructor
    · intro h hcond
      have hc : (match lastErrorTimestamp db with
          | none => true
          | some t => decide (now - t > hours23)) = true := by
        cases hcond with
        | inl hl => rw [hl]
        | inr hl => obtain ⟨t, hl, ht⟩ := hl; rw [hl]; simpa using ht
      rw [if_pos hc] at h
      have hlen := congrArg List.length h
      simp at hlen
    · intro h
      rw [if_neg ?_]
      intro hc
      apply h
      cases hl : lastErrorTimestamp db with
      | none => exact Or.inl rfl
      | some t =>
        rw [hl] at hc
        exact Or.inr ⟨t, rfl, of_decide_eq_true hc⟩
  · intro hle
    rw [hfirst, key, hlast1]
    rw [if_neg (by simp; linarith)]
    rfl
  · intro hgt
    rw [hfirst, key, hlast1]
    rw [if_pos (by simp; linarith)]
    rfl

theorem rate_limit_log_dedup_witness :
    (_log_rate_limit_error_if_needed 1 [] false false
        = [] ++ [⟨1, rateLimitMessage⟩]
      ↔ lastErrorTimestamp [] = none ∨
        ∃ t, lastErrorTimestamp [] = some t ∧ (1 : ℚ) - t > hours23) ∧
    (_log_rate_limit_error_if_needed 3600
        (_log_rate_limit_error_if_needed 0 [] false false) false false).length = 1 ∧
    (_log_rate_limit_error_if_needed 90000
        (_log_rate_limit_error_if_needed 0 [] false false) false false).length = 2 :=
  ⟨(rate_limit_log_dedup 1 0 3600 []).1,
   (rate_limit_log_dedup 1 0 3600 []).2.2.1 (by norm_num [hours23]),
   (rate_limit_log_dedup 1 0 90000 []).2.2.2 (by norm_num [hours23])⟩

/-- Claim C9: the rate-limit logger never raises to its caller — a
database error on the read or the write is caught and rolled back,
leaving the stored state unchanged (in this embedding the function is
total by construction, returning a table in every case) — so the
quota-exceeded signal still propagates out of `_call_google_api`. -/
theorem rate_limit_log_rollback (now : ℚ) (db : List ApiError) (qf cf : Bool)
    (prompt : String) (temp : ℚ) (st : AiState)
    (hfail : qf = true ∨ cf = true) :
    _log_rate_limit_error_if_needed now db qf cf = db ∧
    (_call_google_api prompt temp .quotaExceeded st).1 = .raisedRateLimit := by
  refine ⟨?_, rfl⟩
  simp only [_log_rate_limit_error_if_needed]
  cases qf with
  | true => simp
  | false =>
    have hcf : cf = true := hfail.resolve_left (by simp)
    subst hcf
    simp only [Bool.false_eq_true, if_false]
    split <;> rfl

theorem rate_limit_log_rollback_witness :
    _log_rate_limit_error_if_needed 5 [] true false = [] ∧
    (_call_google_api "p" (3/10) .quotaExceeded witnessState).1
      = .raisedRateLimit :=
  rate_limit_log_rollback 5 [] true false "p" (3/10) witnessState (Or.inl rfl)

/-- Claim C8: `rephrase_as_anchor` makes a single non-batched call at
fixed temperature 0.7 (while batch summarization calls at 0.3); on
success it returns the model text with the usage record, and on a
transient failure the fixed fallback string with no usage. -/
theorem rephrase_as_anchor_spec (text : String) (st : AiState) (t : String)
    (u : Usage) (texts : List String) (hne : texts ≠ []) :
    rephrase_as_anchor text (.success t u) st
      = (.ok t (some u), ⟨st.db, [(anchorPrompt text, 7/10)], 0⟩) ∧
    rephrase_as_anchor text .transientFailure st
      = (.ok "Could not generate the news anchor script at this time." none,
         ⟨st.db, [(anchorPrompt text, 7/10)], 0⟩) ∧
    (∀ provider, ((rephrase_as_anchor text provider st).2.calls).map Prod.snd
        = [7/10]) ∧
    (∀ provider, ((summarize_texts_batch texts provider st).2.calls).map Prod.snd
        = [3/10]) := by
  have hemp : texts.isEmpty = false := by
    cases texts with
    | nil => exact absurd rfl hne
    | cons a as => rfl
  refine ⟨rfl, rfl, ?_, ?_⟩
  · intro provider
    cases provider <;> rfl
  · intro provider
    rw [summarize_texts_batch, hemp]
    simp only [Bool.false_eq_true, if_false]
    cases provider with
    | success t2 u2 =>
      simp only [_call_google_api]
      split <;> rfl
    | transientFailure => rfl
    | quotaExceeded => rfl

theorem rephrase_as_anchor_spec_witness :
    rephrase_as_anchor "breaking news" (.success "script" ⟨2, 3, 5⟩) witnessState
      = (.ok "script" (some ⟨2, 3, 5⟩),
         ⟨witnessState.db, [(anchorPrompt "breaking news", 7/10)], 0⟩) ∧
    rephrase_as_anchor "breaking news" .transientFailure witnessState
      = (.ok "Could not generate the news anchor script at this time." none,
         ⟨witnessState.db, [(anchorPrompt "breaking news", 7/10)], 0⟩) ∧
    ((rephrase_as_anchor "breaking news" .transientFailure witnessState).2.calls).map
        Prod.snd = [7/10] ∧
    ((summarize_texts_batch ["item"] .transientFailure witnessState).2.calls).map
        Prod.snd = [3/10] :=
  ⟨(rephrase_as_anchor_spec "breaking news" witnessState "script" ⟨2, 3, 5⟩
      ["item"] (by simp)).1,
   (rephrase_as_anchor_spec "breaking news" witnessState "script" ⟨2, 3, 5⟩
      ["item"] (by simp)).2.1,
   (rephrase_as_anchor_spec "breaking news" witnessState "script" ⟨2, 3, 5⟩
      ["item"] (by simp)).2.2.1 .transientFailure,
   (rephrase_as_anchor_spec "breaking news" witnessState "script" ⟨2, 3, 5⟩
      ["item"] (by simp)).2.2.2 .transientFailure⟩

theorem parse_feed_length_le (env : NewsEnv) (url : String) (limit : Nat) :
    (_parse_feed_and_get_entries env url limit).length ≤ limit := by
  unfold _parse_feed_and_get_entries
  cases env.fetch url with
  | raises => simp
  | parsed feed =>
    simp only [List.length_map, List.length_take]
    exact Nat.min_le_left _ _

theorem blend_parts_length_le (env : NewsEnv) (url1 url2 : String)
    (l1 l2 : Nat) :
    ((if l1 > 0 then _parse_feed_and_get_entries env url1 l1 else []) ++
     (if l2 > 0 then _parse_feed_and_get_entries env url2 l2 else [])).length
      ≤ l1 + l2 := by
  rw [List.length_append]
  have h1 : (if l1 > 0 then _parse_feed_and_get_entries env url1 l1 else []).length ≤ l1 := by
    split
    · exact parse_feed_length_le _ _ _
    · simp
  have h2 : (if l2 > 0 then _parse_feed_and_get_entries env url2 l2 else []).length ≤ l2 := by
    split
    · exact parse_feed_length_le _ _ _
    · simp
  omega

/-- Claim C10: for every combination of inputs, `get_personalized_news`
returns at most 10 entries — every code path requests either one fetch
of limit 10 or two fetches of limit 5, and each fetch is capped at its
requested limit. -/
theorem get_personalized_news_cap (env : NewsEnv) (user_id : Option Nat)
    (search_query country_code category : Option String)
    (res : List (Entry × Option String))
    (h : get_personalized_news env user_id search_query country_code category
      = .ok res) :
    res.length ≤ 10 := by
  unfold get_personalized_news at h
  simp only [] at h
  split at h
  · obtain rfl : _ = res := by simpa using h
    exact parse_feed_length_le _ _ _
  · split at h
    · obtain rfl : _ = res := by simpa using h
      exact parse_feed_length_le _ _ _
    · split at h
      · exact absurd h (by simp)
      · rename_i combined hcomb
        obtain rfl : _ = res := by simpa using h
        split
        · exact parse_feed_length_le _ _ _
        · split at hcomb
          · have hc := Except.ok.inj hcomb
            subst hc
            simp
          · split at hcomb
            · exact absurd hcomb (by simp)
            · have hc := Except.ok.inj hcomb
              subst hc
              simp
            · split at hcomb
              · have hc := Except.ok.inj hcomb
                subst hc
                exact le_trans (blend_parts_length_le env _ _ _ _) (by decide)
              · split at hcomb
                · have hc := Except.ok.inj hcomb
                  subst hc
                  exact le_trans (blend_parts_length_le env _ _ _ _) (by decide)
                · split at hcomb
                  · have hc := Except.ok.inj hcomb
                    subst hc
                    exact le_trans (blend_parts_length_le env _ _ _ _) (by decide)
                  · have hc := Except.ok.inj hcomb
                    subst hc
                    exact le_trans (blend_parts_length_le env _ _ _ _) (by decide)

/-- Claim C6, amended: for a user whose preferences hold both a
recognized preferred category and at least one followed topic,
`get_personalized_news` with no search query or category override
fetches at most 5 entries from the category feed and at most 5 from a
single topic search whose query joins the topics with " OR ", and,
provided that blend is nonempty, returns the category entries first
followed by the topic entries.  (When both fetches yield no entries the
default Top Stories feed is returned instead —
`preference_blend_split_cex`.) -/
theorem preference_blend_split (env : NewsEnv) (uid : Nat) (u : UserRec)
    (country_code : Option String) (pcat : Option String) (topics : List String)
    (huid : uid ≠ 0) (hu : env.users uid = some u)
    (hprefs : u.prefs = .ok pcat topics)
    (hcat1 : optTruthy pcat = true)
    (hcat2 : (newsFeedLookup (getOrEmpty pcat)).isSome = true)
    (htop : topics ≠ []) :
    (_parse_feed_and_get_entries env
        (build_full_url ((newsFeedLookup (getOrEmpty pcat)).getD "")
          (final_region_code (some u) country_code)) 5).length ≤ 5 ∧
    (_parse_feed_and_get_entries env
        (build_full_url (searchUrlFor (String.intercalate " OR " topics))
          (final_region_code (some u) country_code)) 5).length ≤ 5 ∧
    (_parse_feed_and_get_entries env
        (build_full_url ((newsFeedLookup (getOrEmpty pcat)).getD "")
          (final_region_code (some u) country_code)) 5 ++
       _parse_feed_and_get_entries env
        (build_full_url (searchUrlFor (String.intercalate " OR " topics))
          (final_region_code (some u) country_code)) 5 ≠ [] →
      get_personalized_news env (some uid) none country_code none
        = .ok (_parse_feed_and_get_entries env
            (build_full_url ((newsFeedLookup (getOrEmpty pcat)).getD "")
              (final_region_code (some u) country_code)) 5 ++
           _parse_feed_and_get_entries env
            (build_full_url (searchUrlFor (String.intercalate " OR " topics))
              (final_region_code (some u) country_code)) 5)) := by
  refine ⟨parse_feed_length_le _ _ _, parse_feed_length_le _ _ _, fun hne => ?_⟩
  have h1 : optTruthy (none : Option String) = false := rfl
  have huser : (if uid = 0 then none else env.users uid) = some u := by
    rw [if_neg huid, hu]
  have hti : (!topics.isEmpty) = true := by
    cases topics with
    | nil => exact absurd rfl htop
    | cons a as => rfl
  unfold get_personalized_news
  simp only [h1, Bool.false_eq_true, if_false, Bool.false_and, huser, hprefs,
    hcat1, hcat2, hti, Bool.and_self, Bool.true_and, Bool.and_true, if_true,
    Option.isSome_some]
  simp [hne]

theorem preference_blend_split_witness :
    (_parse_feed_and_get_entries envC6
        (build_full_url ((newsFeedLookup (getOrEmpty (some "World"))).getD "")
          (final_region_code (some userC6) none)) 5).length ≤ 5 ∧
    (_parse_feed_and_get_entries envC6
        (build_full_url (searchUrlFor (String.intercalate " OR " ["ai", "tech"]))
          (final_region_code (some userC6) none)) 5).length ≤ 5 ∧
    get_personalized_news envC6 (some 1) none none none
      = .ok (_parse_feed_and_get_entries envC6
          (build_full_url ((newsFeedLookup (getOrEmpty (some "World"))).getD "")
            (final_region_code (some userC6) none)) 5 ++
         _parse_feed_and_get_entries envC6
          (build_full_url (searchUrlFor (String.intercalate " OR " ["ai", "tech"]))
            (final_region_code (some userC6) none)) 5) :=
  ⟨(preference_blend_split envC6 1 userC6 none (some "World") ["ai", "tech"]
      (by decide) rfl rfl rfl rfl (by simp)).1,
   (preference_blend_split envC6 1 userC6 none (some "World") ["ai", "tech"]
      (by decide) rfl rfl rfl rfl (by simp)).2.1,
   (preference_blend_split envC6 1 userC6 none (some "World") ["ai", "tech"]
      (by decide) rfl rfl rfl rfl (by simp)).2.2 (by decide)⟩

/-- Claim C7: a per-source feed parse failure is swallowed and yields
zero entries from that source; with no preferences and an empty or
failing default feed, `get_personalized_news` returns the empty list
rather than an error; a recognized `SQLAlchemyError` during the
preference access is likewise swallowed, while an unexpected error
(outside the recognized fault categories) propagates to the caller. -/
theorem feed_failures_swallowed (env : NewsEnv) (url : String) (limit : Nat)
    (country_code : Option String) (uid : Nat) (u : UserRec) :
    (env.fetch url = .raises → _parse_feed_and_get_entries env url limit = []) ∧
    (_parse_feed_and_get_entries env
        (build_full_url ((newsFeedLookup "Top Stories").getD "")
          (final_region_code none country_code)) 10 = [] →
      get_personalized_news env none none country_code none = .ok []) ∧
    (uid ≠ 0 → env.users uid = some u → u.prefs = .sqlError →
      _parse_feed_and_get_entries env
          (build_full_url ((newsFeedLookup "Top Stories").getD "")
            (final_region_code (some u) country_code)) 10 = [] →
      get_personalized_news env (some uid) none country_code none = .ok []) ∧
    (uid ≠ 0 → env.users uid = some u → u.prefs = .unexpected →
      get_personalized_news env (some uid) none country_code none = .error ()) := by
  refine ⟨?_, ?_, ?_, ?_⟩
  · intro hr
    unfold _parse_feed_and_get_entries
    rw [hr]
  · intro hdef
    unfold get_personalized_news
    simp only [show optTruthy (none : Option String) = false from rfl,
      Bool.false_eq_true, if_false, Bool.false_and]
    simp [hdef]
  · intro huid hu hpref hdef
    have huser : (if uid = 0 then none else env.users uid) = some u := by
      rw [if_neg huid, hu]
    unfold get_personalized_news
    simp only [show optTruthy (none : Option String) = false from rfl,
      Bool.false_eq_true, if_false, Bool.false_and, huser, hpref]
    simp [hdef]
  · intro huid hu hpref
    have huser : (if uid = 0 then none else env.users uid) = some u := by
      rw [if_neg huid, hu]
    unfold get_personalized_news
    simp only [show optTruthy (none : Option String) = false from rfl,
      Bool.false_eq_true, if_false, Bool.false_and, huser, hpref]

theorem feed_failures_swallowed_witness :
    _parse_feed_and_get_entries envRaises "https://news.google.com/rss" 10 = [] ∧
    get_personalized_news envRaises none none none none = .ok [] ∧
    get_personalized_news envRaises (some 3) none none none = .ok [] ∧
    get_personalized_news envRaises (some 2) none none none = .error () :=
  ⟨(feed_failures_swallowed envRaises "https://news.google.com/rss" 10 none 2
      userUnexpected).1 rfl,
   (feed_failures_swallowed envRaises "https://news.google.com/rss" 10 none 2
      userUnexpected).2.1 rfl,
   (feed_failures_swallowed envRaises "https://news.google.com/rss" 10 none 3
      userSqlFailing).2.2.1 (by decide) rfl rfl rfl,
   (feed_failures_swallowed envRaises "https://news.google.com/rss" 10 none 2
      userUnexpected).2.2.2 (by decide) rfl rfl⟩

theorem get_personalized_news_cap_witness :
    ([(entryA, (none : Option String)), (entryB, none)]
      : List (Entry × Option String)).length ≤ 10 :=
  get_personalized_news_cap envDefault none none none none
    [(entryA, none), (entryB, none)] rfl

/-- Counterexample to claim C6 as stated: in `envC6bad` user 1 has both
a recognized preferred category and followed topics, yet
`get_personalized_news` returns the default-feed entry rather than the
(empty) concatenation of the category and topic fetches, because both
of those fetches fail and yield no entries. -/
theorem preference_blend_split_cex :
    envC6bad.users 1 = some userC6 ∧
    userC6.prefs = .ok (some "World") ["ai", "tech"] ∧
    optTruthy (some "World") = true ∧
    (newsFeedLookup (getOrEmpty (some "World"))).isSome = true ∧
    (["ai", "tech"] : List String) ≠ [] ∧
    _parse_feed_and_get_entries envC6bad
        (build_full_url ((newsFeedLookup (getOrEmpty (some "World"))).getD "")
          (final_region_code (some userC6) none)) 5 ++
      _parse_feed_and_get_entries envC6bad
        (build_full_url (searchUrlFor (String.intercalate " OR " ["ai", "tech"]))
          (final_region_code (some userC6) none)) 5 = [] ∧
    get_personalized_news envC6bad (some 1) none none none
      = .ok [(entryA, none)] := by
  refine ⟨rfl, rfl, rfl, rfl, by decide, rfl, rfl⟩
